import Mathlib

/-!
Shallow embedding of the TopDownGame core (event bus, manager lifecycle,
object pool, enemy spawner, game-session state) translated from the
TypeScript sources, together with theorems settling the frozen claims.
-/

namespace TopDownGame

/-! ## EventBus (src/game/events/EventBus.ts)

The bus keeps `listeners : Map<GameEvent, Set<Function>>`.  A JavaScript
`Set` iterates in insertion order and ignores duplicate inserts, so the
listener set for one event is embedded as a duplicate-free `List Nat` of
callback identities in registration order.  An absent map entry and an
empty list are observationally identical here, so the map is a total
function into lists. -/

inductive GameEvent where
  | sceneShutdown | sceneChange
  | gameStart | gameOver | gameVictory | gamePause | gameResume
  | scoreUpdate | enemyDeath | itemCollect | playerDamage
  | enemySpawn | enemyDifficultyUpdate | hazardDamage
  deriving DecidableEq, Repr

structure EventBus where
  listeners : GameEvent → List Nat

/-- EventBus with no listeners (fresh singleton). -/
def EventBus.empty : EventBus := ⟨fun _ => []⟩

/-- EventBus.on: `Set.add` — appends the callback unless already registered. -/
def EventBus.on (bus : EventBus) (e : GameEvent) (cb : Nat) : EventBus :=
  if cb ∈ bus.listeners e then bus
  else ⟨fun e' => if e' = e then bus.listeners e ++ [cb] else bus.listeners e'⟩

/-- EventBus.off: `Set.delete` of the exact callback. -/
def EventBus.off (bus : EventBus) (e : GameEvent) (cb : Nat) : EventBus :=
  ⟨fun e' => if e' = e then (bus.listeners e).erase cb else bus.listeners e'⟩

/-- EventBus.getListenerCount for one event. -/
def EventBus.getListenerCount (bus : EventBus) (e : GameEvent) : Nat :=
  (bus.listeners e).length

/-- EventBus.emit: `callbacks.forEach(cb => { try { cb(data) } catch (e) { log } })`.
A callback's behaviour is a function from the shared mutable state to
`Except σ σ`: `.ok` is normal return, `.error` carries the state at the
point of the throw (side effects before the throw persist).  The
`try/catch` swallows the throw and the loop continues, so `emit` itself
is total. -/
def catchRun {σ : Type} : Except σ σ → σ
  | .ok st => st
  | .error st => st

def EventBus.emitRun {σ : Type} (behave : Nat → σ → Except σ σ)
    (bus : EventBus) (e : GameEvent) (s : σ) : σ :=
  (bus.listeners e).foldl (fun st cb => catchRun (behave cb st)) s

/-- Instrumented callback behaviour: every callback records its identity in
the trace and then either returns normally or throws, according to
`throws`. -/
def traceBehave (throws : Nat → Bool) : Nat → List Nat → Except (List Nat) (List Nat) :=
  fun cb tr => if throws cb then .error (tr ++ [cb]) else .ok (tr ++ [cb])

/-! ## BaseManager (src/game/core/BaseManager.ts)

The manager keeps `initialized : boolean` and `scene : Scene | null`;
subclass hooks `onInitialize` / `onCleanup` act on subclass-owned state of
an abstract type `ι`.  `initialize` registers a fresh anonymous arrow
function on the module-level `eventBus` for `SCENE_SHUTDOWN`; the model
carries that bus and a counter supplying the identity of each freshly
allocated closure (every arrow-function expression evaluates to a new
object, so its identity is distinct from everything registered before). -/

structure BaseManager (ι : Type) where
  initialized : Bool
  scene : Option Nat
  inner : ι
  bus : EventBus
  nextCb : Nat

/-- BaseManager.cleanup: `onCleanup(); initialized = false; scene = null`.
It does not unregister anything from the bus. -/
def BaseManager.cleanup {ι} (onClean : ι → ι) (m : BaseManager ι) : BaseManager ι :=
  { m with inner := onClean m.inner, initialized := false, scene := none }

/-- BaseManager.initializeWith: duplicate call warns and returns; otherwise set
the scene, set the flag, run `onInitialize`, and register a fresh
anonymous `SCENE_SHUTDOWN` callback on the bus. -/
def BaseManager.initializeWith {ι} (onInit : ι → ι) (m : BaseManager ι) (sc : Nat) :
    BaseManager ι :=
  if m.initialized then m
  else
    { m with
      scene := some sc
      initialized := true
      inner := onInit m.inner
      bus := m.bus.on .sceneShutdown m.nextCb
      nextCb := m.nextCb + 1 }

/-- Modelled from the spec: `forceReinitialize(hostContext)` is absent from
src/game/core/BaseManager.ts (only its caller in Game.createBattleSystem
survives); per the spec it "unconditionally runs `cleanup()` then
`initialize(hostContext)`, regardless of current state". -/
def BaseManager.forceReinitialize {ι} (onInit onClean : ι → ι)
    (m : BaseManager ι) (sc : Nat) : BaseManager ι :=
  (m.cleanup onClean).initializeWith onInit sc

/-- Lifecycle calls made from outside the manager. -/
inductive MgrOp where
  | init (sc : Nat)
  | cleanup
  deriving DecidableEq, Repr

/-- One external lifecycle call on a hook-free manager. -/
def BaseManager.step (m : BaseManager Unit) : MgrOp → BaseManager Unit
  | .init sc => m.initializeWith id sc
  | .cleanup => m.cleanup id

/-- Run a sequence of lifecycle calls. -/
def runOps (m : BaseManager Unit) : List MgrOp → BaseManager Unit
  | [] => m
  | op :: ops => runOps (m.step op) ops

/-- Number of `initialize` calls in the sequence that are not rejected as
duplicates (the rejected ones hit the early-return warning branch). -/
def acceptedInits (m : BaseManager Unit) : List MgrOp → Nat
  | [] => 0
  | .init sc :: ops =>
      (if m.initialized then 0 else 1) + acceptedInits (m.step (.init sc)) ops
  | .cleanup :: ops => acceptedInits (m.step .cleanup) ops

/-- Fresh manager against a fresh bus, before any lifecycle call. -/
def initialManager : BaseManager Unit :=
  { initialized := false, scene := none, inner := (), bus := EventBus.empty, nextCb := 0 }

/-- Every callback identity registered anywhere on the bus was allocated
before `nextCb`, so the next anonymous closure is fresh. -/
def CbBound {ι} (m : BaseManager ι) : Prop :=
  ∀ e cb, cb ∈ m.bus.listeners e → cb < m.nextCb

/-! ## ObjectPoolManager (src/game/utils/ObjectPool.ts)

Pools are `Map<string, PoolableObject[]>`; objects are identified by an
allocation index into an object store recording the `active`/`visible`
flags and whether `destroy()` has been called.  A `factory` call allocates
a fresh object whose initial record is the `init` argument. -/

structure PoolObj where
  active : Bool
  visible : Bool
  destroyed : Bool
  deriving DecidableEq, Repr

structure ObjectPoolManager where
  pools : String → Option (List Nat)
  maxPoolSizes : String → Option Nat
  objs : Nat → PoolObj
  nextId : Nat

/-- Map.set on the pools map. -/
def setPool (p : String → Option (List Nat)) (k : String) (v : List Nat) :
    String → Option (List Nat) :=
  fun k' => if k' = k then some v else p k'

/-- Point update of the object store. -/
def setObj (o : Nat → PoolObj) (i : Nat) (v : PoolObj) : Nat → PoolObj :=
  fun i' => if i' = i then v else o i'

/-- ObjectPoolManager.setMaxPoolSize. -/
def ObjectPoolManager.setMaxPoolSize (w : ObjectPoolManager) (key : String) (n : Nat) :
    ObjectPoolManager :=
  { w with maxPoolSizes := fun k' => if k' = key then some n else w.maxPoolSizes k' }

/-- ObjectPoolManager.getFromPool: ensure the pool exists, linear-scan for
the first inactive entry and reactivate it; otherwise construct via the
factory, append, and return the new object. -/
def ObjectPoolManager.getFromPool (w : ObjectPoolManager) (key : String) (init : PoolObj) :
    Nat × ObjectPoolManager :=
  let pool := (w.pools key).getD []
  match pool.find? (fun id => !(w.objs id).active) with
  | some id =>
      (id, { w with
        objs := setObj w.objs id { w.objs id with active := true, visible := true } })
  | none =>
      (w.nextId, { w with
        pools := setPool w.pools key (pool ++ [w.nextId])
        objs := setObj w.objs w.nextId init
        nextId := w.nextId + 1 })

/-- Effective capacity `this.maxPoolSizes.get(poolKey) || 50`: JavaScript's
`||` falls back to 50 both when the entry is absent (`undefined`) and when
the configured value is the falsy 0. -/
def ObjectPoolManager.maxSizeFor (w : ObjectPoolManager) (key : String) : Nat :=
  match w.maxPoolSizes key with
  | none => 50
  | some n => if n = 0 then 50 else n

/-- ObjectPoolManager.returnToPool: missing pool is a silent no-op; a pool
at or above its effective capacity (configured max, with 0 or unset
falling back to 50) destroys the object only when `indexOf` finds it in
the pool; otherwise the object is deactivated and, if untracked,
appended. -/
def ObjectPoolManager.returnToPool (w : ObjectPoolManager) (key : String) (id : Nat) :
    ObjectPoolManager :=
  match w.pools key with
  | none => w
  | some pool =>
      let maxSize := w.maxSizeFor key
      if maxSize ≤ pool.length then
        if id ∈ pool then
          { w with
            pools := setPool w.pools key (pool.erase id)
            objs := setObj w.objs id { w.objs id with destroyed := true } }
        else w
      else
        let w' := { w with
          objs := setObj w.objs id { w.objs id with active := false, visible := false } }
        if id ∈ pool then w'
        else { w' with pools := setPool w.pools key (pool ++ [id]) }

/-- Number of entries tracked for a key (absent pool counts as empty). -/
def ObjectPoolManager.poolLen (w : ObjectPoolManager) (key : String) : Nat :=
  ((w.pools key).getD []).length

/-- Object record as a typical factory produces it: live and shown. -/
def activeNew : PoolObj := { active := true, visible := true, destroyed := false }

/-- Object record for an entity constructed outside the pool, alive. -/
def looseObj : PoolObj := { active := true, visible := true, destroyed := false }

/-- Fresh pool manager: no pools, no size configuration. -/
def poolWorld0 : ObjectPoolManager :=
  { pools := fun _ => none
    maxPoolSizes := fun _ => none
    objs := fun _ => { active := false, visible := false, destroyed := false }
    nextId := 0 }

/-- Scenario for the acquisition-growth bound: max size 1 for "bullet",
then two `getFromPool` calls whose objects both stay active. -/
def c4World : ObjectPoolManager :=
  ((((poolWorld0.setMaxPoolSize "bullet" 1).getFromPool "bullet" activeNew).2).getFromPool
    "bullet" activeNew).2

/-- Scenario for surplus returns: pool "enemy" exists and is empty, its max
size is 2, and objects 0, 1, 2 are three distinct live entities that were
constructed outside the pool (tracked nowhere). -/
def c3World0 : ObjectPoolManager :=
  { pools := fun k => if k = "enemy" then some [] else none
    maxPoolSizes := fun k => if k = "enemy" then some 2 else none
    objs := fun _ => looseObj
    nextId := 3 }

/-- Pool "enemy" after the first two returns: exactly 2 = max tracked
entries, both inactive. -/
def c3WorldTwo : ObjectPoolManager :=
  (c3World0.returnToPool "enemy" 0).returnToPool "enemy" 1

/-- Three `returnToPool` calls on the three distinct entities, no
intervening `get`. -/
def c3World : ObjectPoolManager :=
  c3WorldTwo.returnToPool "enemy" 2

/-! ## EnemySpawner (src/game/managers/EnemySpawner.ts)

The spawner extends `SingletonManager`; its lifecycle flag `initialized`
and scene reference are inlined here (its `SCENE_SHUTDOWN` registration on
the bus is covered by the `BaseManager` model above).  The physics group
is `Option (List Enemy)`: `none` before the first `onInitialize`.
Randomness is passed in explicitly: `Math.random() * totalWeight` becomes
the draw `r`, and the camera-dependent `getRandomSpawnPosition` result is
the supplied position. -/

inductive EnemyType where
  | slime | flyingCreature | goblin
  deriving DecidableEq, Repr

/-- Loop body of getRandomEnemyType: `random -= item.weight; if (random <= 0)
return item.type`, with `none` for falling off the end of the table. -/
def selectLoop (r : ℚ) : List (EnemyType × ℚ) → Option EnemyType
  | [] => none
  | (t, w) :: rest => if r - w ≤ 0 then some t else selectLoop (r - w) rest

/-- EnemySpawner.getRandomEnemyType given the draw `r = Math.random() * totalWeight`;
the post-loop default returns `slime`. -/
def getRandomEnemyType (ws : List (EnemyType × ℚ)) (r : ℚ) : EnemyType :=
  (selectLoop r ws).getD .slime

/-- Spec-side selection, following the spec's words: "walk entries
subtracting weight until cumulative ≥ `r`; first entry to satisfy this
wins" — the first entry whose cumulative weight is at least `r`. -/
def specCumGo (r acc : ℚ) : List (EnemyType × ℚ) → Option EnemyType
  | [] => none
  | (t, w) :: rest => if r ≤ acc + w then some t else specCumGo r (acc + w) rest

/-- Spec-side weighted selection from cumulative weights. -/
def specFirstCum (ws : List (EnemyType × ℚ)) (r : ℚ) : Option EnemyType :=
  specCumGo r 0 ws

/-- Sum of the table's weights (`reduce((sum, item) => sum + item.weight, 0)`). -/
def totalWeight (ws : List (EnemyType × ℚ)) : ℚ :=
  ws.foldl (fun sum item => sum + item.2) 0

/-- Static weight table from the source: 50% slime, 30% flying creature,
20% goblin. -/
def srcEnemyWeights : List (EnemyType × ℚ) :=
  [(.slime, 50), (.flyingCreature, 30), (.goblin, 20)]

structure Enemy where
  id : Nat
  etype : EnemyType
  pos : ℚ × ℚ
  deriving DecidableEq, Repr

structure SpawnDraw where
  r : ℚ
  pos : ℚ × ℚ
  deriving DecidableEq, Repr

structure EnemySpawner where
  initialized : Bool
  scene : Option Nat
  player : Option Nat
  spawnTimer : Bool
  enemies : Option (List Enemy)
  spawnInterval : ℚ
  maxEnemies : Nat
  spawnDistance : ℚ
  enemyWeights : List (EnemyType × ℚ)
  destroyedEnemies : List Enemy
  nextEnemy : Nat

/-- EnemySpawner.setPlayer. -/
def EnemySpawner.setPlayer (s : EnemySpawner) (p : Nat) : EnemySpawner :=
  { s with player := some p }

/-- EnemySpawner.stop: remove the timer (no-op when already stopped). -/
def EnemySpawner.stop (s : EnemySpawner) : EnemySpawner :=
  { s with spawnTimer := false }

/-- EnemySpawner.clearAllEnemies: `enemies.clear(true, true)` removes and
destroys every child, leaving the group empty. -/
def EnemySpawner.clearAllEnemies (s : EnemySpawner) : EnemySpawner :=
  match s.enemies with
  | none => s
  | some es => { s with enemies := some [], destroyedEnemies := s.destroyedEnemies ++ es }

/-- EnemySpawner.onCleanup: `stop(); clearAllEnemies(); player = null`. -/
def EnemySpawner.onCleanup (s : EnemySpawner) : EnemySpawner :=
  { s.stop.clearAllEnemies with player := none }

/-- EnemySpawner.onInitialize: clear any surviving group (destroying its
children), then always create a fresh empty enemies group. -/
def EnemySpawner.onInitialize (s : EnemySpawner) : EnemySpawner :=
  { s.clearAllEnemies with enemies := some [] }

/-- BaseManager.initializeWith specialized to the spawner: duplicate-init is a
warning no-op; otherwise bind the scene, set the flag, run the subclass
hook. -/
def EnemySpawner.initializeWith (s : EnemySpawner) (sc : Nat) : EnemySpawner :=
  if s.initialized then s
  else ({ s with scene := some sc, initialized := true }).onInitialize

/-- EnemySpawner.reset: `onCleanup()` then demote `initialized` so a
following `initialize()` is not skipped. -/
def EnemySpawner.reset (s : EnemySpawner) : EnemySpawner :=
  { s.onCleanup with initialized := false }

/-- Live enemies currently tracked by the group (empty when the group does
not exist). -/
def EnemySpawner.liveEnemies (s : EnemySpawner) : List Enemy :=
  (s.enemies).getD []

/-- EnemySpawner.getEnemyCount: `enemies ? enemies.children.size : 0`. -/
def EnemySpawner.getEnemyCount (s : EnemySpawner) : Nat :=
  match s.enemies with
  | none => 0
  | some es => es.length

/-- EnemySpawner.spawnEnemy: throw when the player reference is missing;
warn-and-return when the group is missing; skip silently at or above
`maxEnemies`; otherwise create one enemy of the drawn type at the drawn
position and add it to the group (the ENEMY_SPAWN emit carries no state
relevant here). -/
def EnemySpawner.spawnEnemy (s : EnemySpawner) (d : SpawnDraw) :
    Except String EnemySpawner :=
  if s.player = none then
    .error "EnemySpawner requires player reference. Call setPlayer() before using spawner."
  else
    match s.enemies with
    | none => .ok s
    | some es =>
        if s.maxEnemies ≤ es.length then .ok s
        else
          let etype := getRandomEnemyType s.enemyWeights d.r
          .ok { s with
            enemies := some (es ++ [{ id := s.nextEnemy, etype := etype, pos := d.pos }])
            nextEnemy := s.nextEnemy + 1 }

/-- One timer tick: a thrown precondition error propagates past the tick
and leaves the spawner state as it was. -/
def EnemySpawner.stepSpawn (s : EnemySpawner) (d : SpawnDraw) : EnemySpawner :=
  match s.spawnEnemy d with
  | .ok s' => s'
  | .error _ => s

/-- Run of spawn ticks under a fixed configuration. -/
def EnemySpawner.runSpawns (s : EnemySpawner) : List SpawnDraw → EnemySpawner
  | [] => s
  | d :: ds => (s.stepSpawn d).runSpawns ds

/-- Spawner as constructed, before any lifecycle call: interval 1500 ms,
at most 15 enemies, spawn distance 400, the static weight table. -/
def spawner0 : EnemySpawner :=
  { initialized := false, scene := none, player := none, spawnTimer := false
    enemies := none, spawnInterval := 1500, maxEnemies := 15, spawnDistance := 400
    enemyWeights := srcEnemyWeights, destroyedEnemies := [], nextEnemy := 0 }

/-! ## GameStateManager (src/game/managers/GameStateManager.ts)

`Date.now()` timestamps are passed in as explicit `now : Int`
milliseconds; `Math.floor(x / 1000)` on them is floor division.  The
`SCENE_CHANGE` emit in `setState` carries no state relevant to the claims
and is omitted; the event handlers registered in `onInitialize` are
embedded as the functions they close over, composed in source order. -/

inductive GameState where
  | menu | loading | playing | paused | gameOver | victory
  deriving DecidableEq, Repr

structure Score where
  total : Int
  items : Int
  time : Int
  kills : Int
  deriving DecidableEq, Repr

structure SessionStats where
  killCount : Int
  itemsCollected : Int
  damageDealt : Int
  damageTaken : Int
  deriving DecidableEq, Repr

structure Difficulty where
  multiplier : ℚ
  level : Int
  deriving DecidableEq, Repr

structure GameSession where
  startTime : Int
  currentTime : Int
  elapsedTime : Int
  score : Score
  stats : SessionStats
  difficulty : Difficulty
  deriving DecidableEq, Repr

structure GameStateManager where
  currentState : GameState
  previousState : GameState
  session : Option GameSession
  stateHistory : List GameState
  deriving DecidableEq, Repr

/-- GameStateManager.setState: same-state calls return; otherwise record
previous, switch, push history and cap it at 10 entries. -/
def GameStateManager.setState (g : GameStateManager) (ns : GameState) :
    GameStateManager :=
  if ns = g.currentState then g
  else
    let hist := g.stateHistory ++ [ns]
    { g with
      previousState := g.currentState
      currentState := ns
      stateHistory := if 10 < hist.length then hist.tail else hist }

/-- GameStateManager.isPlaying. -/
def GameStateManager.isPlaying (g : GameStateManager) : Bool :=
  g.currentState == GameState.playing

/-- GameStateManager.getSession: returns the session field as is. -/
def GameStateManager.getSession (g : GameStateManager) : Option GameSession :=
  g.session

/-- GameStateManager.startNewSession at timestamp `now`. -/
def GameStateManager.startNewSession (g : GameStateManager) (now : Int) :
    GameStateManager :=
  { g with
    session := some
      { startTime := now, currentTime := now, elapsedTime := 0
        score := { total := 0, items := 0, time := 0, kills := 0 }
        stats := { killCount := 0, itemsCollected := 0, damageDealt := 0, damageTaken := 0 }
        difficulty := { multiplier := 1, level := 1 } } }

/-- GameStateManager.updateSessionTime: no-op without a session or outside
Playing; otherwise stamp `currentTime` and recompute `elapsedTime`. -/
def GameStateManager.updateSessionTime (g : GameStateManager) (now : Int) :
    GameStateManager :=
  match g.session with
  | none => g
  | some sess =>
      if g.isPlaying then
        let sess' := { sess with currentTime := now, elapsedTime := now - sess.startTime }
        { g with session := some sess' }
      else g

/-- GameStateManager.endSession: no-op without a session; otherwise update
the session time, stamp `score.time = floor(elapsed / 1000)` and recompute
`score.total = items + time + kills`.  The session stays stored (it is
reported to the game-over/victory screens); nothing sets it to null
here. -/
def GameStateManager.endSession (g : GameStateManager) (now : Int) :
    GameStateManager :=
  match g.session with
  | none => g
  | some _ =>
      let g1 := g.updateSessionTime now
      match g1.session with
      | none => g1
      | some sess =>
          let t := Int.fdiv sess.elapsedTime 1000
          let score' :=
            { sess.score with time := t, total := sess.score.items + t + sess.score.kills }
          { g1 with session := some { sess with score := score' } }

/-- GameStateManager.updateScore: recognized categories accumulate into
their slot; an unrecognized category falls through to the running
total. -/
def GameStateManager.updateScore (g : GameStateManager) (category : String)
    (delta : Int) : GameStateManager :=
  match g.session with
  | none => g
  | some sess =>
      if category = "items" then
        { g with session := some { sess with score := { sess.score with items := sess.score.items + delta } } }
      else if category = "time" then
        { g with session := some { sess with score := { sess.score with time := sess.score.time + delta } } }
      else if category = "kills" then
        { g with session := some { sess with score := { sess.score with kills := sess.score.kills + delta } } }
      else
        { g with session := some { sess with score := { sess.score with total := sess.score.total + delta } } }

/-- GAME_START handler body: `startNewSession(); setState(PLAYING)`. -/
def GameStateManager.handleGameStart (g : GameStateManager) (now : Int) :
    GameStateManager :=
  (g.startNewSession now).setState .playing

/-- GAME_OVER handler body: `endSession('game_over', data); setState(GAME_OVER)`. -/
def GameStateManager.handleGameOver (g : GameStateManager) (now : Int) :
    GameStateManager :=
  (g.endSession now).setState .gameOver

/-- GAME_VICTORY handler body: `endSession('victory', data); setState(VICTORY)`. -/
def GameStateManager.handleGameVictory (g : GameStateManager) (now : Int) :
    GameStateManager :=
  (g.endSession now).setState .victory

/-- GameStateManager.onCleanup: back to Menu with no session. -/
def GameStateManager.onCleanup (g : GameStateManager) : GameStateManager :=
  { g with
    currentState := .menu, previousState := .menu
    session := none, stateHistory := [] }

/-- Manager as constructed: Menu, no session. -/
def gsm0 : GameStateManager :=
  { currentState := .menu, previousState := .menu, session := none, stateHistory := [] }

/-- Playthrough reaching game over: session started at t=1000 ms, game over
event at t=61000 ms. -/
def c1World : GameStateManager :=
  (gsm0.handleGameStart 1000).handleGameOver 61000

/-- Manager right after the GAME_START handler at t=1000 ms. -/
def c9Start : GameStateManager :=
  gsm0.handleGameStart 1000

/-- Session record held by `c9Start`. -/
def c9Session : GameSession :=
  { startTime := 1000, currentTime := 1000, elapsedTime := 0
    score := { total := 0, items := 0, time := 0, kills := 0 }
    stats := { killCount := 0, itemsCollected := 0, damageDealt := 0, damageTaken := 0 }
    difficulty := { multiplier := 1, level := 1 } }

/-- Spawner ready to run: initialized against scene 7 with player 3. -/
def spawnerReady : EnemySpawner :=
  (spawner0.initializeWith 7).setPlayer 3

/-- Fixed draw used by witnesses: type draw 60, position (100, -200). -/
def drawW : SpawnDraw :=
  { r := 60, pos := (100, -200) }

/-- Bus with two listeners for GAME_OVER, callbacks 1 and 2 in that
order. -/
def c8Bus : EventBus :=
  (EventBus.empty.on .gameOver 1).on .gameOver 2

/-! ## Theorems -/

/-! ### EventBus dispatch and listener accounting -/

theorem on_listeners_of_not_mem (bus : EventBus) (e : GameEvent) (cb : Nat)
    (h : cb ∉ bus.listeners e) :
    (bus.on e cb).listeners e = bus.listeners e ++ [cb] := by
  simp [EventBus.on, h]

theorem on_listeners_other (bus : EventBus) (e : GameEvent) (cb : Nat) (e' : GameEvent)
    (h : e' ≠ e) :
    (bus.on e cb).listeners e' = bus.listeners e' := by
  by_cases hm : cb ∈ bus.listeners e <;> simp [EventBus.on, hm, h]

theorem traceBehave_foldl (throws : Nat → Bool) (cbs : List Nat) : ∀ tr : List Nat,
    cbs.foldl (fun st cb => catchRun (traceBehave throws cb st)) tr = tr ++ cbs := by
  induction cbs with
  | nil => intro tr; simp
  | cons c cs ih =>
      intro tr
      have hstep : catchRun (traceBehave throws c tr) = tr ++ [c] := by
        cases h : throws c <;> simp [traceBehave, catchRun, h]
      simp only [List.foldl_cons, hstep, ih]
      simp

/-- C8: for every event and any behaviour of the callbacks (any subset of
them throwing), `emit` synchronously invokes each currently-registered
callback exactly once, in registration order — the recorded invocation
trace equals the listener list, which is duplicate-free — and a throwing
callback is swallowed by the per-callback try/catch, so the remaining
callbacks still run and `emit` returns normally. -/
theorem c8_emit_order_and_isolation (bus : EventBus) (e : GameEvent)
    (throws : Nat → Bool) (hnd : (bus.listeners e).Nodup) :
    EventBus.emitRun (traceBehave throws) bus e [] = bus.listeners e ∧
    (EventBus.emitRun (traceBehave throws) bus e []).Nodup := by
  have h1 : EventBus.emitRun (traceBehave throws) bus e [] = bus.listeners e := by
    unfold EventBus.emitRun
    simpa using traceBehave_foldl throws (bus.listeners e) []
  exact ⟨h1, h1 ▸ hnd⟩

/-- C8 witness: two listeners for GAME_OVER of which the first throws;
both are invoked, in registration order. -/
theorem c8_emit_witness :
    EventBus.emitRun (traceBehave fun cb => cb == 1) c8Bus .gameOver [] =
      c8Bus.listeners .gameOver ∧
    (EventBus.emitRun (traceBehave fun cb => cb == 1) c8Bus .gameOver []).Nodup :=
  c8_emit_order_and_isolation c8Bus .gameOver (fun cb => cb == 1) (by decide)

/-! ### BaseManager lifecycle -/

theorem step_count (m : BaseManager Unit) (op : MgrOp) (h : CbBound m) :
    CbBound (m.step op) ∧
    ((m.step op).bus.listeners .sceneShutdown).length =
      (m.bus.listeners .sceneShutdown).length +
        (match op with
         | .init _ => if m.initialized then 0 else 1
         | .cleanup => 0) := by
  cases op with
  | cleanup =>
      exact ⟨fun e cb hm => h e cb hm, by simp [BaseManager.step, BaseManager.cleanup]⟩
  | init sc =>
      by_cases hi : m.initialized
      · constructor
        · intro e cb hm
          simp only [BaseManager.step, BaseManager.initializeWith, hi, if_pos] at hm ⊢
          exact h e cb hm
        · simp [BaseManager.step, BaseManager.initializeWith, hi]
      · have hfresh : m.nextCb ∉ m.bus.listeners .sceneShutdown :=
          fun hm => absurd (h _ _ hm) (lt_irrefl _)
        constructor
        · intro e cb hm
          simp only [BaseManager.step, BaseManager.initializeWith, hi, if_neg,
            Bool.false_eq_true, if_false] at hm ⊢
          by_cases he : e = .sceneShutdown
          · subst he
            rw [on_listeners_of_not_mem _ _ _ hfresh] at hm
            rcases List.mem_append.mp hm with h1 | h2
            · exact Nat.lt_succ_of_lt (h _ _ h1)
            · simp at h2
              omega
          · rw [on_listeners_other _ _ _ _ he] at hm
            exact Nat.lt_succ_of_lt (h _ _ hm)
        · simp [BaseManager.step, BaseManager.initializeWith, hi,
            on_listeners_of_not_mem _ _ _ hfresh]

theorem runOps_append (xs ys : List MgrOp) : ∀ m : BaseManager Unit,
    runOps m (xs ++ ys) = runOps (runOps m xs) ys := by
  induction xs with
  | nil => intro m; rfl
  | cons x xs ih => intro m; simp [runOps, ih]

theorem runOps_count (ops : List MgrOp) : ∀ m : BaseManager Unit, CbBound m →
    CbBound (runOps m ops) ∧
    ((runOps m ops).bus.listeners .sceneShutdown).length =
      (m.bus.listeners .sceneShutdown).length + acceptedInits m ops := by
  induction ops with
  | nil =>
      intro m h
      exact ⟨h, by simp [runOps, acceptedInits]⟩
  | cons op ops ih =>
      intro m h
      obtain ⟨h1, h2⟩ := step_count m op h
      obtain ⟨h3, h4⟩ := ih (m.step op) h1
      refine ⟨h3, ?_⟩
      cases op with
      | init sc =>
          simp only [runOps, acceptedInits] at h4 ⊢
          rw [h4]
          simp only at h2
          omega
      | cleanup =>
          simp only [runOps, acceptedInits] at h4 ⊢
          rw [h4]
          simp only at h2
          omega

/-- C10: starting from a fresh manager on a fresh bus, every sequence of
external `initialize`/`cleanup` calls leaves the bus holding exactly one
SCENE_SHUTDOWN callback per initialize that was not rejected as a
duplicate — `cleanup()` unregisters nothing — and extending the sequence
never decreases that listener count. -/
theorem c10_shutdown_listener_growth (ops : List MgrOp) :
    ((runOps initialManager ops).bus.listeners .sceneShutdown).length =
      acceptedInits initialManager ops ∧
    ∀ more : List MgrOp,
      ((runOps initialManager ops).bus.listeners .sceneShutdown).length ≤
        ((runOps initialManager (ops ++ more)).bus.listeners .sceneShutdown).length := by
  have h0 : CbBound initialManager := by
    intro e cb hm
    simp [initialManager, EventBus.empty] at hm
  obtain ⟨hb, hc⟩ := runOps_count ops initialManager h0
  constructor
  · rw [hc]
    simp [initialManager, EventBus.empty]
  · intro more
    rw [runOps_append]
    obtain ⟨_, hc2⟩ := runOps_count more _ hb
    rw [hc2]
    omega

/-- C2: `forceReinitialize(hostContext)` (modelled from the spec as
unconditional `cleanup()` then `initialize(hostContext)`) on a manager in
any state, with any subclass hooks, runs the cleanup hook exactly once and
then the full initialize body exactly once — the inner state is
`onInit (onClean previous)`, one fresh SCENE_SHUTDOWN registration is
attempted, one closure identity is consumed — and the manager ends
Initialized against the new host context. -/
theorem c2_forceReinitialize {ι : Type} (onInit onClean : ι → ι)
    (m : BaseManager ι) (sc : Nat) :
    (m.forceReinitialize onInit onClean sc).initialized = true ∧
    (m.forceReinitialize onInit onClean sc).scene = some sc ∧
    (m.forceReinitialize onInit onClean sc).inner = onInit (onClean m.inner) ∧
    (m.forceReinitialize onInit onClean sc).bus = m.bus.on .sceneShutdown m.nextCb ∧
    (m.forceReinitialize onInit onClean sc).nextCb = m.nextCb + 1 := by
  simp [BaseManager.forceReinitialize, BaseManager.initializeWith, BaseManager.cleanup]

/-! ### ObjectPoolManager capacity behaviour -/

/-- C3 counterexample: pool "enemy" has max size 2; three `returnToPool`
calls on three distinct never-pooled live entities leave the pool holding
the first two and finalize nothing — the third (surplus) entity is neither
removed from tracking nor destroyed, it simply stays active, against the
claimed "removes that surplus entry ... and permanently finalizes
(destroys) it" and "exactly one entry was finalized". -/
theorem c3_counterexample :
    c3World.pools "enemy" = some [0, 1] ∧
    (c3World.objs 0).destroyed = false ∧
    (c3World.objs 1).destroyed = false ∧
    (c3World.objs 2).destroyed = false ∧
    (c3World.objs 2).active = true := by
  decide

/-- C3 (amended): a `returnToPool` on a pool at or above its effective
capacity (the configured max, with 0 or unset falling back to the default
50) finalizes the entry only when the entry is already tracked there
(removing it and calling destroy); a surplus entry that is not in the pool
makes the call a complete no-op — so after N+1 returns of N+1 distinct
untracked entries the pool holds exactly N entries and no entry was
finalized. -/
theorem c3_surplus_return (w : ObjectPoolManager) (key : String) (id : Nat)
    (pool : List Nat) (hpool : w.pools key = some pool)
    (hfull : w.maxSizeFor key ≤ pool.length) :
    (id ∉ pool → w.returnToPool key id = w) ∧
    (id ∈ pool →
      (w.returnToPool key id).pools key = some (pool.erase id) ∧
      ((w.returnToPool key id).objs id).destroyed = true) := by
  constructor
  · intro hmem
    simp [ObjectPoolManager.returnToPool, hpool, hfull, hmem]
  · intro hmem
    simp [ObjectPoolManager.returnToPool, hpool, hfull, hmem, setPool, setObj]

/-- C3 witness: with pool "enemy" full at its max of 2 tracked entries,
returning the untracked entity 2 changes nothing. -/
theorem c3_surplus_return_witness :
    (2 ∉ ([0, 1] : List Nat) → c3WorldTwo.returnToPool "enemy" 2 = c3WorldTwo) ∧
    (2 ∈ ([0, 1] : List Nat) →
      (c3WorldTwo.returnToPool "enemy" 2).pools "enemy" = some (([0, 1] : List Nat).erase 2) ∧
      ((c3WorldTwo.returnToPool "enemy" 2).objs 2).destroyed = true) :=
  c3_surplus_return c3WorldTwo "enemy" 2 [0, 1] (by decide) (by decide)

/-- C4 counterexample: with max size 1 configured for "bullet", two
`getFromPool` calls whose objects both stay active leave 2 tracked
entries — the tracked count exceeds the configured max. -/
theorem c4_counterexample :
    c4World.poolLen "bullet" = 2 ∧
    c4World.maxPoolSizes "bullet" = some 1 ∧
    c4World.maxSizeFor "bullet" = 1 := by
  decide

/-- C4 (amended): `returnToPool` never raises the tracked-entry count for a
key above the larger of its previous count and the effective capacity (the
configured max, with 0 or unset falling back to the default 50): it
appends only when strictly below that capacity.  The count can exceed the
capacity only through `getFromPool`, whose growth at acquisition time is
unbounded. -/
theorem c4_return_bound (w : ObjectPoolManager) (key : String) (id : Nat) :
    (w.returnToPool key id).poolLen key ≤
      max (w.poolLen key) (w.maxSizeFor key) := by
  unfold ObjectPoolManager.returnToPool ObjectPoolManager.poolLen
  cases hp : w.pools key with
  | none => simp [hp]
  | some pool =>
      by_cases hfull : w.maxSizeFor key ≤ pool.length
      · by_cases hmem : id ∈ pool
        · simp [hp, hfull, hmem, setPool]
        · simp [hp, hfull, hmem]
      · by_cases hmem : id ∈ pool
        · simp [hp, hfull, hmem]
        · simp [hp, hfull, hmem, setPool]
          omega

/-! ### EnemySpawner population cap and reset -/

theorem stepSpawn_fields (s : EnemySpawner) (d : SpawnDraw) :
    (s.stepSpawn d).maxEnemies = s.maxEnemies ∧
    (s.stepSpawn d).getEnemyCount ≤ max s.getEnemyCount s.maxEnemies := by
  unfold EnemySpawner.stepSpawn EnemySpawner.spawnEnemy
  by_cases hp : s.player = none
  · simp [hp, le_max_left]
  · cases hg : s.enemies with
    | none => simp [hp, EnemySpawner.getEnemyCount, hg, le_max_left]
    | some es =>
        by_cases hfull : s.maxEnemies ≤ es.length
        · simp [hp, hg, hfull, le_max_left]
        · refine ⟨by simp [hp, hg, hfull], ?_⟩
          simp [hp, hg, hfull, EnemySpawner.getEnemyCount]
          omega

theorem runSpawns_bound (ds : List SpawnDraw) : ∀ s : EnemySpawner,
    (s.runSpawns ds).getEnemyCount ≤ max s.getEnemyCount s.maxEnemies := by
  induction ds with
  | nil => intro s; exact le_max_left _ _
  | cons d ds ih =>
      intro s
      obtain ⟨hm, hc⟩ := stepSpawn_fields s d
      calc ((s.stepSpawn d).runSpawns ds).getEnemyCount
          ≤ max (s.stepSpawn d).getEnemyCount (s.stepSpawn d).maxEnemies := ih _
        _ ≤ max s.getEnemyCount s.maxEnemies := by
            rw [hm]
            exact max_le hc (le_max_right _ _)

/-- C5: with the player reference set and the group initialized,
`spawnEnemy` at or above `maxEnemies` returns the state unchanged — no
spawn, no error, no queueing; strictly below the cap it returns normally
having added exactly one enemy; and over any run of spawn ticks under a
fixed configuration the live-enemy count never exceeds the larger of the
starting count and `maxEnemies` (so never exceeds `maxEnemies` from any
in-cap start). -/
theorem c5_spawn_cap (s : EnemySpawner) (d : SpawnDraw) (es : List Enemy)
    (hp : s.player.isSome = true) (hg : s.enemies = some es) :
    (s.maxEnemies ≤ es.length → s.spawnEnemy d = .ok s) ∧
    (es.length < s.maxEnemies →
      ∃ s', s.spawnEnemy d = .ok s' ∧
        s'.getEnemyCount = s.getEnemyCount + 1 ∧ s'.maxEnemies = s.maxEnemies) ∧
    (∀ ds : List SpawnDraw,
      (s.runSpawns ds).getEnemyCount ≤ max s.getEnemyCount s.maxEnemies) := by
  have hp' : ¬ s.player = none := by
    cases hs : s.player
    · rw [hs] at hp; simp at hp
    · simp
  refine ⟨?_, ?_, fun ds => runSpawns_bound ds s⟩
  · intro hfull
    simp [EnemySpawner.spawnEnemy, hp', hg, hfull]
  · intro hlt
    refine ⟨{ s with
              enemies := some (es ++
                [{ id := s.nextEnemy, etype := getRandomEnemyType s.enemyWeights d.r,
                   pos := d.pos }]),
              nextEnemy := s.nextEnemy + 1 }, ?_, ?_, rfl⟩
    · simp [EnemySpawner.spawnEnemy, hp', hg, Nat.not_le.mpr hlt]
    · simp [EnemySpawner.getEnemyCount, hg]

/-- C5 witness: the freshly initialized spawner with a player set has zero
live enemies, the cap branch is vacuous, a spawn adds exactly one enemy,
and every run stays at or below the cap of 15. -/
theorem c5_spawn_cap_witness :
    (spawnerReady.maxEnemies ≤ ([] : List Enemy).length →
      spawnerReady.spawnEnemy drawW = .ok spawnerReady) ∧
    (([] : List Enemy).length < spawnerReady.maxEnemies →
      ∃ s', spawnerReady.spawnEnemy drawW = .ok s' ∧
        s'.getEnemyCount = spawnerReady.getEnemyCount + 1 ∧
        s'.maxEnemies = spawnerReady.maxEnemies) ∧
    (∀ ds : List SpawnDraw,
      (spawnerReady.runSpawns ds).getEnemyCount ≤
        max spawnerReady.getEnemyCount spawnerReady.maxEnemies) :=
  c5_spawn_cap spawnerReady drawW [] (by decide) (by decide)

/-- C6: `reset()` from any state stops the spawn timer, finalizes every
live enemy (they all land in the destroyed log), clears the player
reference and demotes the lifecycle flag, so that an immediately following
`initialize()` is not skipped as a duplicate: it binds the new scene, ends
Initialized, and yields a fresh empty group — zero live enemies — with the
timer still stopped. -/
theorem c6_reset_then_initialize (s : EnemySpawner) (sc : Nat) :
    s.reset.spawnTimer = false ∧
    s.reset.player = none ∧
    s.reset.initialized = false ∧
    s.reset.destroyedEnemies = s.destroyedEnemies ++ s.liveEnemies ∧
    (s.reset.initializeWith sc).enemies = some [] ∧
    (s.reset.initializeWith sc).getEnemyCount = 0 ∧
    (s.reset.initializeWith sc).spawnTimer = false ∧
    (s.reset.initializeWith sc).player = none ∧
    (s.reset.initializeWith sc).initialized = true ∧
    (s.reset.initializeWith sc).scene = some sc := by
  cases hg : s.enemies <;>
    simp [EnemySpawner.reset, EnemySpawner.onCleanup, EnemySpawner.clearAllEnemies,
      EnemySpawner.stop, EnemySpawner.initializeWith, EnemySpawner.onInitialize,
      EnemySpawner.liveEnemies, EnemySpawner.getEnemyCount, hg]

/-! ### GameStateManager session visibility and frozen score -/

theorem setState_currentState (g : GameStateManager) (ns : GameState) :
    (g.setState ns).currentState = ns := by
  by_cases h : ns = g.currentState <;> simp [GameStateManager.setState, h]

theorem setState_session (g : GameStateManager) (ns : GameState) :
    (g.setState ns).session = g.session := by
  by_cases h : ns = g.currentState <;> simp [GameStateManager.setState, h]

theorem updateSessionTime_session (g : GameStateManager) (sess : GameSession) (now : Int)
    (h : g.session = some sess) :
    (g.updateSessionTime now).session = some
      (if g.isPlaying then
        { sess with currentTime := now, elapsedTime := now - sess.startTime }
      else sess) := by
  by_cases hp : g.isPlaying <;>
    simp [GameStateManager.updateSessionTime, h, hp]

theorem endSession_spec (g : GameStateManager) (sess : GameSession) (now : Int)
    (h : g.session = some sess) (hp : g.isPlaying = true) :
    (g.endSession now).session = some
      ({ sess with
         currentTime := now
         elapsedTime := now - sess.startTime
         score := { sess.score with
           time := Int.fdiv (now - sess.startTime) 1000
           total := sess.score.items + Int.fdiv (now - sess.startTime) 1000 +
             sess.score.kills } }) := by
  have h1 := updateSessionTime_session g sess now h
  rw [hp] at h1
  simp only [if_true] at h1
  simp [GameStateManager.endSession, h, h1]

theorem endSession_isSome (g : GameStateManager) (now : Int)
    (h : g.session.isSome = true) :
    ((g.endSession now).session).isSome = true := by
  obtain ⟨sess, hs⟩ := Option.isSome_iff_exists.mp h
  have h1 := updateSessionTime_session g sess now hs
  by_cases hp : g.isPlaying <;>
    simp [hp] at h1 <;>
    simp [GameStateManager.endSession, hs, h1]

/-- C1 counterexample: session started at t=1000 ms, GAME_OVER handler at
t=61000 ms: the manager is in GameOver — outside {Playing, Paused} — yet
`getSession()` returns the frozen session, not the claimed null. -/
theorem c1_counterexample :
    c1World.currentState = GameState.gameOver ∧ c1World.getSession ≠ none := by
  decide

/-- C1 (amended): `getSession()` never crashes — it returns the stored
session field directly.  That field is null in the freshly constructed
manager and after `onCleanup` (Menu with no session), but after the
GAME_OVER or GAME_VICTORY handler runs on a manager holding a session the
manager is in GameOver/Victory and `getSession()` still returns the frozen
non-null session for the end screens. -/
theorem c1_getSession (g : GameStateManager) (now : Int)
    (h : g.session.isSome = true) :
    gsm0.getSession = none ∧
    (∀ g' : GameStateManager, g'.onCleanup.getSession = none) ∧
    (g.handleGameOver now).currentState = GameState.gameOver ∧
    ((g.handleGameOver now).getSession).isSome = true ∧
    (g.handleGameVictory now).currentState = GameState.victory ∧
    ((g.handleGameVictory now).getSession).isSome = true := by
  refine ⟨rfl, fun g' => rfl, ?_, ?_, ?_, ?_⟩
  · exact setState_currentState _ _
  · show ((g.endSession now).setState .gameOver).session.isSome = true
    rw [setState_session]
    exact endSession_isSome g now h
  · exact setState_currentState _ _
  · show ((g.endSession now).setState .victory).session.isSome = true
    rw [setState_session]
    exact endSession_isSome g now h

/-- C1 witness: the playthrough started at t=1000 ms holds a session, so
the amended statement instantiates at it. -/
theorem c1_getSession_witness :
    gsm0.getSession = none ∧
    (∀ g' : GameStateManager, g'.onCleanup.getSession = none) ∧
    (c9Start.handleGameOver 61000).currentState = GameState.gameOver ∧
    ((c9Start.handleGameOver 61000).getSession).isSome = true ∧
    (c9Start.handleGameVictory 61000).currentState = GameState.victory ∧
    ((c9Start.handleGameVictory 61000).getSession).isSome = true :=
  c1_getSession c9Start 61000 (by decide)

/-- C9: freezing the session at game end (endSession while still Playing,
as the GAME_OVER/GAME_VICTORY handlers do before switching state)
overwrites the time category with floor(elapsed/1000) and recomputes the
total as exactly items + time + kills; consequently an amount accumulated
into the running total through an unrecognized score category during play
is discarded — updateScore on an unrecognized category leaves the frozen
session unchanged. -/
theorem c9_frozen_total (g : GameStateManager) (sess : GameSession)
    (now delta : Int) (category : String)
    (h : g.session = some sess) (hp : g.isPlaying = true)
    (hc1 : category ≠ "items") (hc2 : category ≠ "time") (hc3 : category ≠ "kills") :
    (g.endSession now).session = some
      ({ sess with
         currentTime := now
         elapsedTime := now - sess.startTime
         score := { sess.score with
           time := Int.fdiv (now - sess.startTime) 1000
           total := sess.score.items + Int.fdiv (now - sess.startTime) 1000 +
             sess.score.kills } }) ∧
    ((g.updateScore category delta).endSession now).session = (g.endSession now).session := by
  have h1 := endSession_spec g sess now h hp
  refine ⟨h1, ?_⟩
  have hup : (g.updateScore category delta).session = some
      ({ sess with score := { sess.score with total := sess.score.total + delta } }) := by
    simp [GameStateManager.updateScore, h, hc1, hc2, hc3]
  have hst : (g.updateScore category delta).currentState = g.currentState := by
    simp [GameStateManager.updateScore, h, hc1, hc2, hc3]
  have hplay : (g.updateScore category delta).isPlaying = true := by
    unfold GameStateManager.isPlaying
    rw [hst]
    exact hp
  have h2 := endSession_spec (g.updateScore category delta) _ now hup hplay
  rw [h1, h2]

/-- C9 witness: the session started at t=1000 ms, polluted through the
unrecognized category "combo" with 7 points, frozen at t=61000 ms: the
frozen total is 0 + 60 + 0 and the pollution is discarded. -/
theorem c9_frozen_total_witness :
    (c9Start.endSession 61000).session = some
      ({ c9Session with
         currentTime := 61000
         elapsedTime := 61000 - c9Session.startTime
         score := { c9Session.score with
           time := Int.fdiv (61000 - c9Session.startTime) 1000
           total := c9Session.score.items + Int.fdiv (61000 - c9Session.startTime) 1000 +
             c9Session.score.kills } }) ∧
    ((c9Start.updateScore "combo" 7).endSession 61000).session =
      (c9Start.endSession 61000).session :=
  c9_frozen_total c9Start c9Session 61000 7 "combo" (by decide) (by decide)
    (by decide) (by decide) (by decide)

/-! ### Weighted archetype selection -/

theorem totalWeight_foldl (ws : List (EnemyType × ℚ)) : ∀ a : ℚ,
    ws.foldl (fun sum item => sum + item.2) a = a + (ws.map Prod.snd).sum := by
  induction ws with
  | nil => intro a; simp
  | cons p ps ih =>
      intro a
      simp [List.foldl_cons, ih]
      ring

theorem specCumGo_selectLoop (ws : List (EnemyType × ℚ)) : ∀ r acc : ℚ,
    specCumGo r acc ws = selectLoop (r - acc) ws := by
  induction ws with
  | nil => intro r acc; rfl
  | cons p ps ih =>
      intro r acc
      obtain ⟨t, w⟩ := p
      simp only [specCumGo, selectLoop]
      by_cases h : r ≤ acc + w
      · rw [if_pos h, if_pos (by linarith)]
      · rw [if_neg h, if_neg (by intro hc; exact h (by linarith)), ih]
        congr 1
        ring

theorem selectLoop_isSome (ws : List (EnemyType × ℚ)) : ∀ r : ℚ,
    (∀ p ∈ ws, 0 < p.2) → 0 ≤ r → r < (ws.map Prod.snd).sum →
    (selectLoop r ws).isSome = true := by
  induction ws with
  | nil =>
      intro r _ h0 hr
      simp at hr
      linarith
  | cons p ps ih =>
      intro r hw h0 hr
      obtain ⟨t, w⟩ := p
      simp only [selectLoop]
      by_cases h : r - w ≤ 0
      · simp [h]
      · rw [if_neg h]
        simp only [List.map_cons, List.sum_cons] at hr
        exact ih (r - w) (fun q hq => hw q (List.mem_cons_of_mem _ hq))
          (by linarith) (by linarith)

/-- C7: for every weight table of strictly positive weights and every draw
`r` with `0 ≤ r < totalWeight`, the subtract-and-test loop terminates
inside the table — the post-loop default is never reached — and it returns
exactly the first entry whose cumulative weight is at least `r`, the
spec-side selection, deterministically in the draw. -/
theorem c7_weighted_selection (ws : List (EnemyType × ℚ)) (r : ℚ)
    (hw : ∀ p ∈ ws, 0 < p.2) (h0 : 0 ≤ r) (hr : r < totalWeight ws) :
    selectLoop r ws = some (getRandomEnemyType ws r) ∧
    specFirstCum ws r = some (getRandomEnemyType ws r) := by
  have hsum : r < (ws.map Prod.snd).sum := by
    have ht := totalWeight_foldl ws 0
    unfold totalWeight at hr
    linarith
  have hsome := selectLoop_isSome ws r hw h0 hsum
  obtain ⟨t, ht⟩ := Option.isSome_iff_exists.mp hsome
  have h1 : selectLoop r ws = some (getRandomEnemyType ws r) := by
    unfold getRandomEnemyType
    rw [ht]
    rfl
  have h2 : specFirstCum ws r = selectLoop r ws := by
    unfold specFirstCum
    rw [specCumGo_selectLoop ws r 0, sub_zero]
  exact ⟨h1, h2.trans h1⟩

/-- C7 witness: over the static 50/30/20 table with total 100, the draw 60
lands inside the table (on the flying creature, cumulative 80 ≥ 60). -/
theorem c7_weighted_selection_witness :
    selectLoop 60 srcEnemyWeights = some (getRandomEnemyType srcEnemyWeights 60) ∧
    specFirstCum srcEnemyWeights 60 = some (getRandomEnemyType srcEnemyWeights 60) :=
  c7_weighted_selection srcEnemyWeights 60 (by norm_num [srcEnemyWeights])
    (by norm_num) (by norm_num [totalWeight, srcEnemyWeights])

end TopDownGame
